import Mathlib

/-!

Verification of the recording-branch lifecycle manager of a live camera
application (Rust sources: src/main.rs, src/ui.rs, src/video.rs,
src/video/record.rs).

The development is a shallow embedding of the control logic:

* the data model of src/video/record.rs (RecordSettings, RecordCommand,
  ActiveRecording) is translated field for field;
* the recording-branch description string built by start_recording is
  embedded as a structured value (bin_desc) whose fields hold, in source
  order, the element descriptions that the Rust format string interpolates;
* the fallible GStreamer calls of start_recording (each Rust question-mark
  operator) are driven by an oracle of booleans, one per call site in source
  order, and the mutations they perform on the live graph are tracked in an
  explicit GraphState (bins added to the pipeline, tee request pads held,
  tee-to-branch links made);
* stop_recording is embedded as the description of the deferred work it
  installs: the pads it adds an IDLE probe to, the body of the probe
  callback in order, the probe return value, and the body of the cleanup
  thread it spawns, in order;
* the supervisor loop of src/video.rs is embedded as a step function on a
  SupervisorState (graph, current_recording, teardowns issued, errors
  logged), one step per received RecordCommand, plus the loop-exit path;
* the shared single-slot cells of src/main.rs and their accesses in
  src/ui.rs and src/video.rs are embedded as a SharedCells state with one
  step per program event that touches them.

-/

namespace CamUI

/-- Video encoder choice, from enum VideoEncoder in src/video/record.rs. -/
inductive VideoEncoder
  | H264
  | H265
  deriving DecidableEq

/-- Output container choice, from enum Container in src/video/record.rs. -/
inductive Container
  | MP4
  | MOV
  deriving DecidableEq

/-- Requested recording resolution, from struct Resolution in src/video/record.rs. -/
structure Resolution where
  width : Nat
  height : Nat
  deriving DecidableEq

/-- Recording settings, from struct RecordSettings in src/video/record.rs.
The PathBuf field is modelled as a string. -/
structure RecordSettings where
  res : Resolution
  enc : VideoEncoder
  container : Container
  filepath : String
  deriving DecidableEq

/-- Command sent from the UI to the pipeline thread, from enum RecordCommand
in src/video/record.rs. -/
inductive RecordCommand
  | Start (settings : RecordSettings)
  | Stop
  deriving DecidableEq

/-- Encoder element description chosen by start_recording (the enc_plugin
match in src/video/record.rs, lines 54-57). -/
def enc_plugin : VideoEncoder → String
  | .H264 => "x264enc tune=zerolatency"
  | .H265 => "x265enc tune=zerolatency"

/-- Muxer element description chosen by start_recording (the mux_plugin
match in src/video/record.rs, lines 58-61). -/
def mux_plugin : Container → String
  | .MP4 => "mp4mux faststart=true"
  | .MOV => "qtmux"

/-- Caps filter string interpolated into the branch description by
start_recording: requested width and height, pixel format fixed to I420. -/
def caps_filter (res : Resolution) : String :=
  "video/x-raw,width=" ++ toString res.width ++ ",height=" ++ toString res.height
    ++ ",format=I420"

/-- Structured form of the bin_desc format string of start_recording
(src/video/record.rs, lines 66-90): the video chain of element descriptions
in order, the muxer pad each chain feeds, the audio chain in order, the
muxer description, and the filesink location. -/
structure BinDesc where
  video_chain : List String
  video_pad_target : String
  audio_chain : List String
  audio_pad_target : String
  mux : String
  filesink_location : String
  deriving DecidableEq

/-- The branch description start_recording builds from the settings,
element for element in the order of the Rust format string. -/
def bin_desc (settings : RecordSettings) : BinDesc :=
  { video_chain := ["queue name=q_v", "videoconvert", "videoscale",
      caps_filter settings.res, enc_plugin settings.enc]
    video_pad_target := "mux.video_0"
    audio_chain := ["queue name=q_a", "audioconvert", "audioresample",
      "fdkaacenc", "aacparse"]
    audio_pad_target := "mux.audio_0"
    mux := mux_plugin settings.container ++ " name=mux"
    filesink_location := settings.filepath }

/-- The two fan-out points start_recording takes as arguments: the video tee
and the audio tee. -/
inductive TeeKind
  | video
  | audio
  deriving DecidableEq

/-- Observable state of the live graph, as mutated by start_recording and
described by stop_recording: the branch bins added to the pipeline, the tee
request pads currently held (tee, pad id), the tee-to-branch links in place
(tee, pad id), and the next fresh pad id. -/
structure GraphState where
  bins : List BinDesc
  requested_pads : List (TeeKind × Nat)
  links : List (TeeKind × Nat)
  next_pad : Nat
  deriving DecidableEq

/-- The graph as the supervisor loop starts: no recording branch attached. -/
def initial_graph : GraphState :=
  { bins := [], requested_pads := [], links := [], next_pad := 0 }

/-- Failure oracle for start_recording: one boolean per fallible call
(each Rust question-mark operator), in source order. The unwrap calls
(by_name, static_pad, request_pad_simple) abort the process on failure and
are modelled as always succeeding. -/
structure StartOracle where
  parse_bin_ok : Bool
  pipeline_add_ok : Bool
  v_ghost_build_ok : Bool
  v_ghost_activate_ok : Bool
  v_add_pad_ok : Bool
  a_ghost_build_ok : Bool
  a_ghost_activate_ok : Bool
  a_add_pad_ok : Bool
  v_link_ok : Bool
  a_link_ok : Bool
  sync_state_ok : Bool
  deriving DecidableEq

/-- Oracle of the run where every fallible call succeeds. -/
def allOk : StartOracle :=
  ⟨true, true, true, true, true, true, true, true, true, true, true⟩

/-- Oracle of the run where linking the audio tee pad to the branch fails
and every earlier call succeeds. -/
def audio_link_fails : StartOracle :=
  { allOk with a_link_ok := false }

/-- Which fallible call of start_recording failed (source order). -/
inductive StartErr
  | parseBin
  | pipelineAdd
  | vGhostBuild
  | vGhostActivate
  | vAddPad
  | aGhostBuild
  | aGhostActivate
  | aAddPad
  | vLink
  | aLink
  | syncState
  deriving DecidableEq

/-- Handle of the branch currently attached, from struct ActiveRecording in
src/video/record.rs (lines 39-43): the branch bin and one tee request pad
per media kind, video and audio. -/
structure ActiveRecording where
  bin : BinDesc
  video_tee_pad : Nat
  audio_tee_pad : Nat
  deriving DecidableEq

/-- Shallow embedding of start_recording (src/video/record.rs, lines 46-123)
over the observable GraphState, with the oracle deciding each fallible call.
Mutations happen exactly where the source performs them: the bin is added to
the pipeline before any tee pad is requested; each tee request pad is
allocated before its link is attempted; a failure returns the state already
mutated so far (the Rust question-mark operator performs no rollback). -/
def start_recording (g : GraphState) (o : StartOracle) (settings : RecordSettings) :
    GraphState × Except StartErr ActiveRecording :=
  if !o.parse_bin_ok then (g, .error .parseBin) else
  let bin := bin_desc settings
  if !o.pipeline_add_ok then (g, .error .pipelineAdd) else
  let g1 : GraphState := { g with bins := g.bins ++ [bin] }
  if !o.v_ghost_build_ok then (g1, .error .vGhostBuild) else
  if !o.v_ghost_activate_ok then (g1, .error .vGhostActivate) else
  if !o.v_add_pad_ok then (g1, .error .vAddPad) else
  if !o.a_ghost_build_ok then (g1, .error .aGhostBuild) else
  if !o.a_ghost_activate_ok then (g1, .error .aGhostActivate) else
  if !o.a_add_pad_ok then (g1, .error .aAddPad) else
  let vpad := g1.next_pad
  let g2 : GraphState :=
    { g1 with requested_pads := g1.requested_pads ++ [(.video, vpad)]
              next_pad := g1.next_pad + 1 }
  if !o.v_link_ok then (g2, .error .vLink) else
  let g3 : GraphState := { g2 with links := g2.links ++ [(.video, vpad)] }
  let apad := g3.next_pad
  let g4 : GraphState :=
    { g3 with requested_pads := g3.requested_pads ++ [(.audio, apad)]
              next_pad := g3.next_pad + 1 }
  if !o.a_link_ok then (g4, .error .aLink) else
  let g5 : GraphState := { g4 with links := g4.links ++ [(.audio, apad)] }
  if !o.sync_state_ok then (g5, .error .syncState) else
  (g5, .ok { bin := bin, video_tee_pad := vpad, audio_tee_pad := apad })

/-- One primitive step of the deferred teardown work stop_recording
installs (src/video/record.rs, lines 125-177). -/
inductive StopAction
  | unlink (kind : TeeKind) (pad : Nat)
  | send_eos
  | spawn_worker
  | sleep_ms (ms : Nat)
  | set_state_null
  | release_request_pad (kind : TeeKind) (pad : Nat)
  | remove_bin
  deriving DecidableEq

/-- What stop_recording installs, read off the source: the pads it calls
add_probe with PadProbeType IDLE on, in order; the body of the probe
callback, in order; whether the callback returns PadProbeReturn Remove
(the probe removes itself after firing once); and the body of the cleanup
thread the callback spawns, in order. -/
structure StopBehavior where
  probes_installed : List (TeeKind × Nat)
  on_idle : List StopAction
  probe_return_remove : Bool
  worker : List StopAction
  deriving DecidableEq

/-- Shallow embedding of stop_recording (src/video/record.rs, lines 125-177).
The source adds a single IDLE probe, on the video tee request pad of the
active recording only; the probe callback unlinks the video tee pad from the
v_sink ghost pad, unlinks the audio tee pad from the a_sink ghost pad, sends
EOS into the orphaned bin, spawns the cleanup thread, and returns
PadProbeReturn Remove; the cleanup thread sleeps 600 milliseconds, sets the
bin state to Null, releases the video and audio tee request pads, and
removes the bin from the pipeline. -/
def stop_recording (active : ActiveRecording) : StopBehavior :=
  { probes_installed := [(.video, active.video_tee_pad)]
    on_idle := [.unlink .video active.video_tee_pad,
                .unlink .audio active.audio_tee_pad,
                .send_eos,
                .spawn_worker]
    probe_return_remove := true
    worker := [.sleep_ms 600,
               .set_state_null,
               .release_request_pad .video active.video_tee_pad,
               .release_request_pad .audio active.audio_tee_pad,
               .remove_bin] }

/-- State of the supervisor loop of spawn_gst_thread (src/video.rs): the
graph, the at-most-one active recording held in the local variable
current_recording, the stop_recording teardowns issued so far, and the
start errors printed so far. -/
structure SupervisorState where
  graph : GraphState
  current_recording : Option ActiveRecording
  teardowns : List StopBehavior
  errors_logged : List StartErr
  deriving DecidableEq

/-- The supervisor state as the loop is entered: current_recording is None. -/
def initial_supervisor : SupervisorState :=
  { graph := initial_graph, current_recording := none, teardowns := [], errors_logged := [] }

/-- One iteration of the command-drain match of the supervisor loop
(src/video.rs, lines 81-101), on one received command, with the oracle
deciding the fallible calls of a Start. A Start while current_recording is
Some is skipped entirely; a successful Start stores the handle; a failed
Start prints the error and keeps the mutated graph; a Stop while Some takes
the handle and issues stop_recording; a Stop while None does nothing. -/
def process_command (st : SupervisorState) (o : StartOracle) (cmd : RecordCommand) :
    SupervisorState :=
  match cmd with
  | .Start settings =>
    match st.current_recording with
    | some _ => st
    | none =>
      match start_recording st.graph o settings with
      | (g, .ok active) => { st with graph := g, current_recording := some active }
      | (g, .error e) => { st with graph := g, errors_logged := st.errors_logged ++ [e] }
  | .Stop =>
    match st.current_recording with
    | some active =>
      { st with current_recording := none
                teardowns := st.teardowns ++ [stop_recording active] }
    | none => st

/-- The supervisor loop processing a sequence of commands in submission
order, each with the oracle of its own fallible calls. -/
def process_commands (st : SupervisorState)
    (cmds : List (StartOracle × RecordCommand)) : SupervisorState :=
  cmds.foldl (fun s oc => process_command s oc.1 oc.2) st

/-- One step of the loop-exit path of spawn_gst_thread (src/video.rs,
lines 118-122). -/
inductive ExitAction
  | invoke_stop (behavior : StopBehavior)
  | set_pipeline_null
  deriving DecidableEq

/-- Shallow embedding of the loop-exit path (src/video.rs, lines 118-122):
after the loop breaks, if current_recording still holds a handle the
supervisor calls stop_recording on it, and then immediately sets the
pipeline state to Null. Nothing between the two actions waits on the
spawned cleanup thread or on the probe. -/
def shutdown_actions (st : SupervisorState) : List ExitAction :=
  match st.current_recording with
  | some active => [.invoke_stop (stop_recording active), .set_pipeline_null]
  | none => [.set_pipeline_null]

/-- Decoded RGBA frame, from the egui ColorImage the appsink callback builds
in src/video.rs (size and pixel bytes). -/
structure ColorImage where
  width : Nat
  height : Nat
  pixels : List Nat
  deriving DecidableEq

/-- Rust Option take, as called on the locked frame slot in src/ui.rs:
returns the current contents and leaves the slot empty. -/
def option_take {α : Type} (slot : Option α) : Option α × Option α :=
  (slot, none)

/-- The two shared single-slot cells created in src/main.rs (lines 16-19):
the frame buffer, initialized to None, and the audio level, initialized to
-60.0. The program performs no arithmetic on the audio level, so the f32 is
modelled as a rational. -/
structure SharedCells where
  frame_buffer : Option ColorImage
  audio_level : ℚ
  deriving DecidableEq

/-- The cells as main initializes them. -/
def init_cells : SharedCells :=
  { frame_buffer := none, audio_level := -60 }

/-- UI-side state touched by the cell accesses of CameraApp update. -/
structure CameraApp where
  texture : Option ColorImage
  deriving DecidableEq

/-- The shared-cell accesses of one CameraApp update call (src/ui.rs,
lines 66-71), in source order: read the audio level through the lock
without modifying it, then take the frame slot contents and, when a frame
was present, load it as the new texture. Returns the cells, the app state,
and the audio level value the update read. -/
def ui_update (cells : SharedCells) (app : CameraApp) :
    SharedCells × CameraApp × ℚ :=
  let current_level := cells.audio_level
  let taken := option_take cells.frame_buffer
  let cells' : SharedCells := { cells with frame_buffer := taken.2 }
  let app' : CameraApp :=
    match taken.1 with
    | some image => { app with texture := some image }
    | none => app
  (cells', app', current_level)

/-- Every program event that touches a shared cell: the appsink new_sample
callback of src/video.rs publishing a frame, and a CameraApp update call.
No other code holds the cells: spawn_gst_thread in src/video.rs takes no
reference to the audio level cell and its thread never writes it. -/
inductive SharedEvent
  | new_sample (image : ColorImage)
  | ui_frame (app : CameraApp)
  deriving DecidableEq

/-- Effect of one shared-cell event on the cells. -/
def shared_step (cells : SharedCells) : SharedEvent → SharedCells
  | .new_sample image => { cells with frame_buffer := some image }
  | .ui_frame app => (ui_update cells app).1

/-- The cells after a sequence of shared-cell events. -/
def run_events (cells : SharedCells) (events : List SharedEvent) : SharedCells :=
  events.foldl shared_step cells

/-- The default settings the UI submits on the R key (src/ui.rs,
lines 51-60), with a fixed timestamp. -/
def sample_settings : RecordSettings :=
  { res := { width := 1920, height := 1080 }
    enc := .H264
    container := .MOV
    filepath := "rec_0.mov" }

/-- The handle a successful start from the initial graph returns. -/
def sample_active : ActiveRecording :=
  { bin := bin_desc sample_settings, video_tee_pad := 0, audio_tee_pad := 1 }

/-- C1: a Start command processed while an ActiveRecording is already held
leaves the supervisor state completely unchanged (a silent no-op, no error
logged), and two consecutive Start commands without an intervening Stop,
the first succeeding, leave exactly one branch attached and one
ActiveRecording held, whatever the second command would have done. -/
theorem at_most_one_active_recording
    (g : GraphState) (a : ActiveRecording) (td : List StopBehavior)
    (el : List StartErr) (o : StartOracle) (s : RecordSettings) :
    process_command ⟨g, some a, td, el⟩ o (.Start s) = ⟨g, some a, td, el⟩ ∧
    ∀ s₁ s₂ o₂,
      (process_commands initial_supervisor
        [(allOk, .Start s₁), (o₂, .Start s₂)]).graph.bins = [bin_desc s₁] ∧
      (process_commands initial_supervisor
        [(allOk, .Start s₁), (o₂, .Start s₂)]).current_recording =
        some ⟨bin_desc s₁, 0, 1⟩ := by
  exact ⟨rfl, fun s₁ s₂ o₂ => ⟨rfl, rfl⟩⟩

/-- C2 counterexample: when linking the audio fan-out connection fails after
the video connection succeeded, start_recording returns the error but rolls
nothing back: starting from the empty graph, the inserted branch is still in
the graph, both requested tee pads are still held, and the video link is
still in place, contradicting the claim that the graph is restored and
every requested connection released. -/
theorem start_no_rollback_on_audio_link_failure :
    (start_recording initial_graph audio_link_fails sample_settings).2 =
      .error .aLink ∧
    ¬ (start_recording initial_graph audio_link_fails sample_settings).1 =
      initial_graph ∧
    (start_recording initial_graph audio_link_fails sample_settings).1 =
      { bins := [bin_desc sample_settings]
        requested_pads := [(.video, 0), (.audio, 1)]
        links := [(.video, 0)]
        next_pad := 2 } := by
  refine ⟨rfl, fun h => ?_, rfl⟩
  exact absurd (congrArg GraphState.next_pad h) (by decide)

/-- C2 amended: branch insertion happens before any fan-out connection is
requested, and a description-parse or insertion failure returns an error
with the graph unmodified; but a linking failure is propagated with no
rollback at all: after an audio-link failure the inserted branch is still in
the graph, both tee pads remain requested, and the video link remains in
place. -/
theorem start_recording_failure_states
    (g : GraphState) (o : StartOracle) (s : RecordSettings) :
    start_recording g { o with parse_bin_ok := false } s = (g, .error .parseBin) ∧
    start_recording g { o with parse_bin_ok := true, pipeline_add_ok := false } s =
      (g, .error .pipelineAdd) ∧
    start_recording g audio_link_fails s =
      ({ bins := g.bins ++ [bin_desc s]
         requested_pads :=
           g.requested_pads ++ [(.video, g.next_pad)] ++ [(.audio, g.next_pad + 1)]
         links := g.links ++ [(.video, g.next_pad)]
         next_pad := g.next_pad + 1 + 1 }, .error .aLink) := by
  exact ⟨rfl, rfl, rfl⟩

/-- C3 counterexample: at the loop-exit state holding the sample recording,
the teardown the supervisor performs is exactly a call of the probe-deferred
stop_recording followed immediately by setting the pipeline to Null: that
teardown installs an idle probe (its probe list is not empty), defers the
cleanup to a spawned worker, and the grace-period wait lives on that worker,
so the supervisor neither performs a synchronous teardown nor waits for the
teardown to complete before releasing the graph. -/
theorem shutdown_teardown_is_probe_deferred :
    shutdown_actions
      ⟨(start_recording initial_graph allOk sample_settings).1,
        some sample_active, [], []⟩ =
      [.invoke_stop (stop_recording sample_active), .set_pipeline_null] ∧
    ¬ (stop_recording sample_active).probes_installed = [] ∧
    StopAction.spawn_worker ∈ (stop_recording sample_active).on_idle ∧
    StopAction.sleep_ms 600 ∈ (stop_recording sample_active).worker := by
  refine ⟨rfl, by decide, by decide, by decide⟩

/-- C3 amended: when the supervisor loop exits while a recording branch is
still attached, the supervisor invokes the same probe-deferred
stop_recording teardown (it installs an idle probe on the video tee pad and
hands the grace-period wait and removal to a spawned worker) and then
immediately sets the pipeline to Null, without waiting for that teardown to
complete. -/
theorem shutdown_invokes_deferred_stop
    (g : GraphState) (a : ActiveRecording) (td : List StopBehavior)
    (el : List StartErr) :
    shutdown_actions ⟨g, some a, td, el⟩ =
      [.invoke_stop (stop_recording a), .set_pipeline_null] ∧
    (stop_recording a).probes_installed = [(.video, a.video_tee_pad)] ∧
    (stop_recording a).on_idle.getLast? = some .spawn_worker ∧
    (stop_recording a).worker.head? = some (.sleep_ms 600) := by
  exact ⟨rfl, rfl, rfl, rfl⟩

/-- C4 counterexample: stop_recording installs its idle probe on the video
fan-out connection only; no probe is installed on the audio connection of
the sample recording, contradicting the claim that a barrier is installed on
each attached fan-out output connection. -/
theorem stop_installs_no_audio_probe :
    (stop_recording sample_active).probes_installed = [(.video, 0)] ∧
    ¬ (TeeKind.audio, sample_active.audio_tee_pad) ∈
      (stop_recording sample_active).probes_installed := by
  exact ⟨rfl, by decide⟩

/-- C4 amended: stop_recording installs a single one-shot idle probe, on the
video fan-out connection only (the audio connection gets none); when the
probe fires it unlinks both the video and the audio fan-out connections
before pushing the end-of-stream marker into the orphaned branch, and the
callback returns Remove so the probe self-removes after firing once. -/
theorem stop_idle_probe_behavior (a : ActiveRecording) :
    (stop_recording a).probes_installed = [(.video, a.video_tee_pad)] ∧
    (stop_recording a).probe_return_remove = true ∧
    (stop_recording a).on_idle =
      [.unlink .video a.video_tee_pad, .unlink .audio a.audio_tee_pad,
       .send_eos, .spawn_worker] := by
  exact ⟨rfl, rfl, rfl⟩

/-- C5: the idle callback ends by spawning the cleanup worker, and that
worker performs, in order: wait the fixed 600 millisecond grace period,
transition the branch to the Null state, release the video and audio tee
request pads, and remove the branch bin from the graph. -/
theorem stop_worker_cleanup_order (a : ActiveRecording) :
    (stop_recording a).on_idle.getLast? = some .spawn_worker ∧
    (stop_recording a).worker =
      [.sleep_ms 600, .set_state_null,
       .release_request_pad .video a.video_tee_pad,
       .release_request_pad .audio a.audio_tee_pad,
       .remove_bin] := by
  exact ⟨rfl, rfl⟩

/-- C6: a Stop command processed while no ActiveRecording is held leaves the
supervisor state unchanged in every component: the graph, the recording
slot, the teardowns issued and the errors logged. -/
theorem stop_while_idle_is_noop
    (g : GraphState) (td : List StopBehavior) (el : List StartErr)
    (o : StartOracle) :
    process_command ⟨g, none, td, el⟩ o .Stop = ⟨g, none, td, el⟩ := rfl

/-- C7: for every RecordSettings the branch is built as the buffering queue,
then videoconvert and videoscale to the requested resolution with the single
intermediate pixel format I420, then the encoder selected by the settings
(x264enc or x265enc, both tuned for zero latency), then the muxer selected
by the container (mp4mux with faststart for MP4, qtmux for MOV), then a
filesink at exactly the path of the settings; and any successful
start_recording run attaches exactly this branch. -/
theorem branch_pipeline_structure (s : RecordSettings) :
    (bin_desc s).video_chain =
      ["queue name=q_v", "videoconvert", "videoscale",
       "video/x-raw,width=" ++ toString s.res.width ++ ",height="
         ++ toString s.res.height ++ ",format=I420",
       match s.enc with
       | .H264 => "x264enc tune=zerolatency"
       | .H265 => "x265enc tune=zerolatency"] ∧
    (bin_desc s).mux =
      (match s.container with
       | .MP4 => "mp4mux faststart=true"
       | .MOV => "qtmux") ++ " name=mux" ∧
    (bin_desc s).filesink_location = s.filepath ∧
    (∀ g o g' a, start_recording g o s = (g', Except.ok a) → a.bin = bin_desc s) := by
  refine ⟨rfl, rfl, rfl, ?_⟩
  intro g o g' a h
  obtain ⟨p₁, p₂, p₃, p₄, p₅, p₆, p₇, p₈, p₉, p₁₀, p₁₁⟩ := o
  cases p₁ <;> cases p₂ <;> cases p₃ <;> cases p₄ <;> cases p₅ <;> cases p₆ <;>
    cases p₇ <;> cases p₈ <;> cases p₉ <;> cases p₁₀ <;> cases p₁₁ <;>
    injection h with h1 h2 <;>
    first
      | exact Except.noConfusion h2
      | (injection h2 with h3; rw [← h3])

/-- C8: one UI update reads the audio level without clearing it (the cell is
unchanged and the read returns its stored value) and takes the latest frame
destructively (the returned frame, loaded as the texture when present, is
the current slot value, and the slot is left empty). -/
theorem frame_read_destructive_audio_read_not
    (cells : SharedCells) (app : CameraApp) :
    (ui_update cells app).1.frame_buffer = none ∧
    (ui_update cells app).1.audio_level = cells.audio_level ∧
    (ui_update cells app).2.2 = cells.audio_level ∧
    (ui_update cells app).2.1.texture =
      (match cells.frame_buffer with
       | some image => some image
       | none => app.texture) := by
  refine ⟨rfl, rfl, rfl, ?_⟩
  cases h : cells.frame_buffer <;> simp [ui_update, option_take, h]

/-- C9: the branch description contains the audio encoding chain
unconditionally in the settings, feeding the audio muxer pad, and a
successful start_recording requests and links an audio fan-out connection
in addition to the video one, returning an ActiveRecording that holds both
the video and the audio tee pad handles. -/
theorem start_always_attaches_audio (g : GraphState) (s : RecordSettings) :
    (bin_desc s).audio_chain =
      ["queue name=q_a", "audioconvert", "audioresample",
       "fdkaacenc", "aacparse"] ∧
    (bin_desc s).audio_pad_target = "mux.audio_0" ∧
    start_recording g allOk s =
      ({ bins := g.bins ++ [bin_desc s]
         requested_pads :=
           g.requested_pads ++ [(.video, g.next_pad)] ++ [(.audio, g.next_pad + 1)]
         links := g.links ++ [(.video, g.next_pad)] ++ [(.audio, g.next_pad + 1)]
         next_pad := g.next_pad + 1 + 1 },
       Except.ok { bin := bin_desc s, video_tee_pad := g.next_pad,
                   audio_tee_pad := g.next_pad + 1 }) := by
  exact ⟨rfl, rfl, rfl⟩

/-- C10: no shared-cell event of the program writes the audio level cell, so
after any sequence of events from the initial cells the audio level still
equals -60, and the value any UI update reads is -60. -/
theorem audio_level_never_written (events : List SharedEvent) (app : CameraApp) :
    (run_events init_cells events).audio_level = -60 ∧
    (ui_update (run_events init_cells events) app).2.2 = -60 := by
  have key : ∀ (cells : SharedCells) (es : List SharedEvent),
      (run_events cells es).audio_level = cells.audio_level := by
    intro cells es
    induction es generalizing cells with
    | nil => rfl
    | cons e es ih =>
      have step : run_events cells (e :: es) = run_events (shared_step cells e) es := rfl
      rw [step, ih]
      cases e <;> rfl
  exact ⟨key init_cells events, key init_cells events⟩

end CamUI
